import Mathlib

/-!
Shallow embedding of `src/src/error.rs` from the `ocl-core` repository: the
`Error` taxonomy, its accessors (`description`, `status`, `prepend`), the
status translator `Error.err_status`, the `From` conversions, and the
formatting helper `fmt_status_desc`, together with theorems settling the
spec's claims about them.

Rust strings are embedded as Lean `String`, the raw `i32` status code as
`Int` (no arithmetic is performed on it, only equality tests, so no overflow
modelling is needed), `Result<T>` as `Except Error T`, and the `panic!`
branch of the translator as the `none` case of an `Option` wrapper around
the returned result.
-/

namespace OclCore

/-- Modelled from the spec: the `Status` enumeration is code of this
repository that is not under `src/` (error.rs imports it as `::Status`).
The spec describes it as a fixed enumeration mapping every valid native
status integer to a symbolic name, with a designated success sentinel
(`CL_SUCCESS`); a representative finite fragment of the OpenCL status space
is embedded here, including the spec's worked example where `-5` maps to
the symbolic name containing `OUT_OF_RESOURCES`. -/
inductive Status where
  | CL_SUCCESS
  | CL_DEVICE_NOT_FOUND
  | CL_DEVICE_NOT_AVAILABLE
  | CL_OUT_OF_RESOURCES
  | CL_OUT_OF_HOST_MEMORY
  | CL_INVALID_VALUE
  deriving DecidableEq, Fintype

/-- Modelled from the spec: the raw signed 32-bit value of each status code,
`status as i32` in the source (the enumeration's discriminants, supplied by
the wrapped API's specification). -/
def statusToI32 : Status → Int
  | .CL_SUCCESS => 0
  | .CL_DEVICE_NOT_FOUND => -1
  | .CL_DEVICE_NOT_AVAILABLE => -2
  | .CL_OUT_OF_RESOURCES => -5
  | .CL_OUT_OF_HOST_MEMORY => -6
  | .CL_INVALID_VALUE => -30

/-- The text produced by the derived `Debug` formatting of a `Status` value,
used by the source both for `status_string` and inside `fmt_status_desc`:
the variant's symbolic name. -/
def statusDebug : Status → String
  | .CL_SUCCESS => "CL_SUCCESS"
  | .CL_DEVICE_NOT_FOUND => "CL_DEVICE_NOT_FOUND"
  | .CL_DEVICE_NOT_AVAILABLE => "CL_DEVICE_NOT_AVAILABLE"
  | .CL_OUT_OF_RESOURCES => "CL_OUT_OF_RESOURCES"
  | .CL_OUT_OF_HOST_MEMORY => "CL_OUT_OF_HOST_MEMORY"
  | .CL_INVALID_VALUE => "CL_INVALID_VALUE"

/-- Modelled from the spec: `Status::from_i32` (the `num::FromPrimitive`
lookup used by the translator), a fixed enumeration lookup from the raw
integer to the symbolic status, `none` for an integer outside the known
value space. -/
def Status.from_i32 (code : Int) : Option Status :=
  if code = 0 then some .CL_SUCCESS
  else if code = -1 then some .CL_DEVICE_NOT_FOUND
  else if code = -2 then some .CL_DEVICE_NOT_AVAILABLE
  else if code = -5 then some .CL_OUT_OF_RESOURCES
  else if code = -6 then some .CL_OUT_OF_HOST_MEMORY
  else if code = -30 then some .CL_INVALID_VALUE
  else none

/-- Model of `std::ffi::NulError` (embedded interior terminator byte found
in a string): an opaque foreign error carried together with the text its
own `description()` method returns. -/
structure NulError where
  description : String
  deriving DecidableEq

/-- Model of `std::io::Error`: an opaque foreign error carried together
with the text its own `description()` method returns. -/
structure IoError where
  description : String
  deriving DecidableEq

/-- Model of `std::string::FromUtf8Error` (byte sequence is not valid
UTF-8): an opaque foreign error carried together with the text its own
`description()` method returns. -/
structure FromUtf8Error where
  description : String
  deriving DecidableEq

/-- Model of `std::ffi::IntoStringError` (C string could not be converted
into a UTF-8 string): an opaque foreign error carried together with the
text its own `description()` method returns. -/
structure IntoStringError where
  description : String
  deriving DecidableEq

/-- The `Error` enum of `error.rs`. The `Io` variant of the source is named
`Io` here as well; field names follow the source (`status`, `status_string`,
`fn_name`, `fn_info`, `desc`). -/
inductive Error where
  | Conversion (desc : String)
  | Status (status : OclCore.Status) (status_string : String) (fn_name : String)
      (fn_info : String) (desc : String)
  | String (desc : String)
  | Nul (err : NulError)
  | Io (err : IoError)
  | FromUtf8Error (err : OclCore.FromUtf8Error)
  | UnspecifiedDimensions
  | IntoStringError (err : OclCore.IntoStringError)
  deriving DecidableEq

/-- Alias for the built-in string type, usable inside the `Error` namespace
where the bare name `String` denotes the `Error.String` constructor. -/
abbrev Str : Type := String

/-- `ocl::Error` result type: `pub type Result<T> = std::result::Result<T, Error>`. -/
abbrev Result (T : Type) := Except Error T

/-- `Error::new`: returns a new `Error` with the description string `desc`
(the `String` variant). -/
def Error.new (desc : Str) : Error := Error.String desc

/-- `Error::err`: a new `Err` containing an `Error::String` variant with the
given description. -/
def Error.err (T : Type) (desc : Str) : Result T := Except.error (Error.String desc)

/-- `Error::err_conversion`: a new `Err` containing an `Error::Conversion`
variant with the given description. -/
def Error.err_conversion (T : Type) (desc : Str) : Result T :=
  Except.error (Error.Conversion desc)

/-- The static `SDK_DOCS_URL_PRE` of the source. -/
def SDK_DOCS_URL_PRE : String := "https://www.khronos.org/registry/cl/sdk/1.2/docs/man/xhtml/"

/-- The static `SDK_DOCS_URL_SUF` of the source. -/
def SDK_DOCS_URL_SUF : String := ".html#errors"

/-- `fmt_status_desc` of the source: the fully rendered diagnostic for a
status failure. The single-use `fn_info_string` binding is inlined; the
pieces of the `format!` template are concatenated in the source's order
(the banner rows are 32, 31 and 77 hash marks, exactly as in the source). -/
def fmt_status_desc (status : Status) (fn_name : String) (fn_info : String) : String :=
  "\n\n################################ OPENCL ERROR ############################### \n\nError executing function: " ++
    (fn_name ++
      ((if fn_info.isEmpty = false then "(\"" ++ fn_info ++ "\")" else "") ++
        ("  \n\nStatus error code: " ++
          (statusDebug status ++
            (" (" ++
              (toString (statusToI32 status) ++
                (")  \n\nPlease visit the following url for more information: \n\n" ++
                  ((SDK_DOCS_URL_PRE ++ fn_name ++ SDK_DOCS_URL_SUF) ++
                    "  \n\n############################################################################# \n"))))))))

/-- `Error::err_status`, the status translator. The source's `panic!` on an
unknown code is modelled as the `none` case (process abort, no value
returned); a returned value is `some`. The single-use `desc` and
`status_string` bindings are inlined. -/
def Error.err_status (T : Type) (default : T) (errcode : Int) (fn_name : Str)
    (fn_info : Str) : Option (Result T) :=
  match Status.from_i32 errcode with
  | none => none
  | some status =>
    if status = Status.CL_SUCCESS then
      some (Except.ok default)
    else
      some (Except.error (Error.Status status (statusDebug status) fn_name fn_info
        (fmt_status_desc status fn_name fn_info)))

/-- `Error::prepend`: if this is a `String` variant, concatenate `txt` to
the front of the contained string (the source reserves capacity, clears,
pushes `txt`, then pushes the old contents — net effect `txt ++ s`);
otherwise do nothing at all. -/
def Error.prepend (e : Error) (txt : Str) : Error :=
  match e with
  | Error.String s => Error.String (txt ++ s)
  | e => e

/-- `Error::status`: the carried status code for `Status` variants, `none`
otherwise. -/
def Error.status : Error → Option OclCore.Status
  | Error.Status s _ _ _ _ => some s
  | _ => none

/-- `std::error::Error::description` for `Error`: single dispatch over the
active variant, exactly as in the source (note the `Status` arm returns the
`status_string` field). -/
def Error.description : Error → Str
  | Error.Conversion desc => desc
  | Error.Nul err => err.description
  | Error.Io err => err.description
  | Error.FromUtf8Error err => err.description
  | Error.IntoStringError err => err.description
  | Error.Status _ status_string _ _ _ => status_string
  | Error.String desc => desc
  | Error.UnspecifiedDimensions =>
      "Cannot convert to a valid set of dimensions. Please specify some dimensions."

/-- `impl Into<String> for Error`: `self.description().to_string()`. -/
def Error.intoString (e : Error) : Str := Error.description e

/-- `impl From<String> for Error` (and `From<&str>`, which goes through
`String::from` and is textually identical in the model): `Error::new`. -/
def Error.fromString (desc : Str) : Error := Error.new desc

/-- `impl From<&str> for Error`: `Error::new(String::from(desc))`. -/
def Error.fromStr (desc : Str) : Error := Error.new desc

/-- `impl From<std::ffi::NulError> for Error`. -/
def Error.fromNul (err : NulError) : Error := Error.Nul err

/-- `impl From<std::io::Error> for Error`. -/
def Error.fromIoError (err : IoError) : Error := Error.Io err

/-- `impl From<std::string::FromUtf8Error> for Error`. -/
def Error.fromFromUtf8Error (err : OclCore.FromUtf8Error) : Error := Error.FromUtf8Error err

/-- `impl From<std::ffi::IntoStringError> for Error`. -/
def Error.fromIntoStringError (err : OclCore.IntoStringError) : Error :=
  Error.IntoStringError err

/-- `impl std::fmt::Display for Error`: `f.write_str(self.description())`. -/
def Error.display (e : Error) : Str := Error.description e

/-- Discriminator for the `String` (generic message) variant. -/
def Error.isStringVariant : Error → Bool
  | Error.String _ => true
  | _ => false

/-- Discriminator for the `Status` variant. -/
def Error.isStatusVariant : Error → Bool
  | Error.Status _ _ _ _ _ => true
  | _ => false

/-- The carried text that `Error.description` forwards is non-empty (trivial
for `UnspecifiedDimensions`, whose description is a constant). -/
def Error.carriedTextNonempty : Error → Prop
  | Error.Conversion desc => desc ≠ ""
  | Error.Nul err => err.description ≠ ""
  | Error.Io err => err.description ≠ ""
  | Error.FromUtf8Error err => err.description ≠ ""
  | Error.IntoStringError err => err.description ≠ ""
  | Error.Status _ status_string _ _ _ => status_string ≠ ""
  | Error.String desc => desc ≠ ""
  | Error.UnspecifiedDimensions => True

/-- `sub` occurs as a contiguous substring of `hay`. -/
def strContains (hay sub : String) : Prop := sub.data <:+: hay.data

instance (hay sub : String) : Decidable (strContains hay sub) :=
  inferInstanceAs (Decidable (sub.data <:+: hay.data))

theorem strContains_mid (a b c : String) : strContains (a ++ (b ++ c)) b := by
  show b.data <:+: (a ++ (b ++ c)).data
  simp only [String.data_append]
  rw [← List.append_assoc]
  exact List.infix_append a.data b.data c.data

theorem strContains_left (b c : String) : strContains (b ++ c) b := by
  show b.data <:+: (b ++ c).data
  simp only [String.data_append]
  exact (List.prefix_append b.data c.data).isInfix

theorem strContains_cons_left (x y sub : String) (h : strContains y sub) :
    strContains (x ++ y) sub := by
  show sub.data <:+: (x ++ y).data
  simp only [String.data_append]
  exact h.trans (List.suffix_append x.data y.data).isInfix

theorem from_i32_toI32 (s : Status) : Status.from_i32 (statusToI32 s) = some s := by
  cases s <;> rfl

theorem err_status_success_eq (T : Type) (default : T) (fn_name fn_info : String) :
    Error.err_status T default (statusToI32 Status.CL_SUCCESS) fn_name fn_info =
      some (Except.ok default) := rfl

theorem err_status_failure_eq (T : Type) (default : T) (s : Status)
    (fn_name fn_info : String) (h : s ≠ Status.CL_SUCCESS) :
    Error.err_status T default (statusToI32 s) fn_name fn_info =
      some (Except.error (Error.Status s (statusDebug s) fn_name fn_info
        (fmt_status_desc s fn_name fn_info))) := by
  unfold Error.err_status
  rw [from_i32_toI32]
  simp [h]

/-- C2: for every error value `e` of every variant, the display rendering
produces exactly the same string as the description accessor. -/
theorem display_eq_description (e : Error) : Error.display e = Error.description e := rfl

/-- C10: for every error value `e`, the `Into` string conversion yields
exactly `description e`; it is defined purely in terms of the description
accessor. -/
theorem intoString_eq_description (e : Error) : Error.intoString e = Error.description e := rfl

/-- C7: the `status` accessor returns `some` of the carried status code for
the `Status` variant and `none` for every other variant. -/
theorem status_accessor_spec (s : Status) (ss fn fi d : String) (e : Error)
    (h : Error.isStatusVariant e = false) :
    Error.status (Error.Status s ss fn fi d) = some s ∧ Error.status e = none := by
  refine ⟨rfl, ?_⟩
  cases e <;> simp_all [Error.status, Error.isStatusVariant]

/-- Witness for C7 at a concrete `Status` value and a concrete non-`Status`
value. -/
theorem status_accessor_spec_witness :
    Error.isStatusVariant (Error.String "oops") = false ∧
      (Error.status (Error.Status Status.CL_OUT_OF_RESOURCES "CL_OUT_OF_RESOURCES"
          "clEnqueueReadBuffer" "buffer_size=1024" "d") = some Status.CL_OUT_OF_RESOURCES ∧
        Error.status (Error.String "oops") = none) :=
  ⟨rfl, status_accessor_spec Status.CL_OUT_OF_RESOURCES "CL_OUT_OF_RESOURCES"
    "clEnqueueReadBuffer" "buffer_size=1024" "d" (Error.String "oops") rfl⟩

/-- C6: `prepend txt` on a `String` (generic message) value rewrites it to
`String (txt ++ s)`; on a value of any other variant it is a no-op (so in
particular the value's description is unchanged). -/
theorem prepend_spec (txt s : String) (e : Error) (h : Error.isStringVariant e = false) :
    Error.prepend (Error.String s) txt = Error.String (txt ++ s) ∧ Error.prepend e txt = e := by
  refine ⟨rfl, ?_⟩
  cases e <;> simp_all [Error.prepend, Error.isStringVariant]

/-- Witness for C6: the spec's worked example, prepending context text onto
a message, and a no-op on `UnspecifiedDimensions`. -/
theorem prepend_spec_witness :
    Error.isStringVariant Error.UnspecifiedDimensions = false ∧
      (Error.prepend (Error.String "bad shape") "context: " =
          Error.String ("context: " ++ "bad shape") ∧
        Error.prepend Error.UnspecifiedDimensions "context: " = Error.UnspecifiedDimensions) :=
  ⟨rfl, prepend_spec "context: " "bad shape" Error.UnspecifiedDimensions rfl⟩

/-- C4: the translator applied to the success sentinel code returns `Ok`
carrying the default value of the success payload type, for every operation
name and argument string. -/
theorem err_status_success_spec (T : Type) (default : T) (fn_name fn_info : String) :
    Error.err_status T default (statusToI32 Status.CL_SUCCESS) fn_name fn_info =
      some (Except.ok default) :=
  err_status_success_eq T default fn_name fn_info

/-- C8: each `From` conversion is a lossless wrap, and the description of
the converted value reproduces the foreign error's own description (for the
wrapped foreign error types) or the literal text (for the string
conversions). -/
theorem from_conversions_lossless (e1 : NulError) (e2 : IoError) (e3 : FromUtf8Error)
    (e4 : IntoStringError) (s : String) :
    Error.fromNul e1 = Error.Nul e1 ∧
      Error.description (Error.fromNul e1) = e1.description ∧
      Error.fromIoError e2 = Error.Io e2 ∧
      Error.description (Error.fromIoError e2) = e2.description ∧
      Error.fromFromUtf8Error e3 = Error.FromUtf8Error e3 ∧
      Error.description (Error.fromFromUtf8Error e3) = e3.description ∧
      Error.fromIntoStringError e4 = Error.IntoStringError e4 ∧
      Error.description (Error.fromIntoStringError e4) = e4.description ∧
      Error.fromString s = Error.String s ∧
      Error.description (Error.fromString s) = s ∧
      Error.fromStr s = Error.String s ∧
      Error.description (Error.fromStr s) = s :=
  ⟨rfl, rfl, rfl, rfl, rfl, rfl, rfl, rfl, rfl, rfl, rfl, rfl⟩

/-- C3: for every known status code other than the success sentinel, the
translator returns an `Err` of the `Status` variant whose carried code
equals the input and whose `status_string` is the code's symbolic name; and
a `Status` error is never produced for the success code. -/
theorem err_status_failure_spec (T : Type) (default : T) (s : Status)
    (fn_name fn_info : String) (h : s ≠ Status.CL_SUCCESS) :
    Error.err_status T default (statusToI32 s) fn_name fn_info =
      some (Except.error (Error.Status s (statusDebug s) fn_name fn_info
        (fmt_status_desc s fn_name fn_info))) ∧
      ∀ e : Error, Error.err_status T default (statusToI32 Status.CL_SUCCESS) fn_name fn_info ≠
        some (Except.error e) := by
  refine ⟨err_status_failure_eq T default s fn_name fn_info h, ?_⟩
  intro e hc
  rw [err_status_success_eq] at hc
  simp at hc

/-- Witness for C3 at the spec's worked example, the out-of-resources code. -/
theorem err_status_failure_spec_witness :
    Status.CL_OUT_OF_RESOURCES ≠ Status.CL_SUCCESS ∧
      (Error.err_status Unit () (statusToI32 Status.CL_OUT_OF_RESOURCES)
          "clEnqueueReadBuffer" "buffer_size=1024" =
        some (Except.error (Error.Status Status.CL_OUT_OF_RESOURCES
          (statusDebug Status.CL_OUT_OF_RESOURCES) "clEnqueueReadBuffer" "buffer_size=1024"
          (fmt_status_desc Status.CL_OUT_OF_RESOURCES "clEnqueueReadBuffer"
            "buffer_size=1024"))) ∧
        ∀ e : Error, Error.err_status Unit () (statusToI32 Status.CL_SUCCESS)
          "clEnqueueReadBuffer" "buffer_size=1024" ≠ some (Except.error e)) :=
  ⟨by decide, err_status_failure_spec Unit () Status.CL_OUT_OF_RESOURCES
    "clEnqueueReadBuffer" "buffer_size=1024" (by decide)⟩

/-- C5: for a status integer outside the known enumeration the translator
aborts (modelled as `none`) rather than returning any value — in particular
it never converts an unknown code into a normal `Err` — and for every code
inside the known enumeration the abort branch is unreachable: the
translator returns a value. -/
theorem err_status_unknown_aborts (T : Type) (default : T) (code : Int)
    (fn_name fn_info : String) (h : Status.from_i32 code = none) :
    Error.err_status T default code fn_name fn_info = none ∧
      ∀ (code2 : Int) (s2 : Status), Status.from_i32 code2 = some s2 →
        (Error.err_status T default code2 fn_name fn_info).isSome = true := by
  constructor
  · unfold Error.err_status
    rw [h]
  · intro code2 s2 h2
    unfold Error.err_status
    rw [h2]
    by_cases hs : s2 = Status.CL_SUCCESS <;> simp [hs]

/-- Witness for C5 at the unknown code `1` (no status maps to it). -/
theorem err_status_unknown_aborts_witness :
    Status.from_i32 1 = none ∧
      (Error.err_status Unit () 1 "clFinish" "" = none ∧
        ∀ (code2 : Int) (s2 : Status), Status.from_i32 code2 = some s2 →
          (Error.err_status Unit () code2 "clFinish" "").isSome = true) :=
  ⟨by decide, err_status_unknown_aborts Unit () 1 "clFinish" "" (by decide)⟩

/-- C9 counterexample: `Error::err` accepts the empty string, and the
description of the resulting `String` variant is empty, refuting the claim
that the description is non-empty for arbitrary carried strings. -/
theorem description_nonempty_counterexample :
    Error.err Unit "" = Except.error (Error.String "") ∧
      Error.description (Error.String "") = "" :=
  ⟨rfl, rfl⟩

/-- C9 amended: the description is non-empty provided the carried (or
forwarded underlying) text is non-empty; for `UnspecifiedDimensions` the
description is a non-empty constant unconditionally. -/
theorem description_nonempty (e : Error) (h : Error.carriedTextNonempty e) :
    Error.description e ≠ "" := by
  cases e <;> first | exact h | decide

/-- Witness for C9 at a concrete non-empty message. -/
theorem description_nonempty_witness :
    Error.carriedTextNonempty (Error.String "bad shape") ∧
      Error.description (Error.String "bad shape") ≠ "" := by
  have h : Error.carriedTextNonempty (Error.String "bad shape") := by
    show ("bad shape" : String) ≠ ""
    decide
  exact ⟨h, description_nonempty (Error.String "bad shape") h⟩

/-- C1 counterexample: at the spec's worked example the translator's
`Status` error has `description` equal to the `status_string` field
(`CL_OUT_OF_RESOURCES`), which differs from the precomputed `desc` field
and does not contain the documentation URL. -/
theorem status_description_counterexample :
    Error.err_status Unit () (-5) "clEnqueueReadBuffer" "buffer_size=1024" =
      some (Except.error (Error.Status Status.CL_OUT_OF_RESOURCES "CL_OUT_OF_RESOURCES"
        "clEnqueueReadBuffer" "buffer_size=1024"
        (fmt_status_desc Status.CL_OUT_OF_RESOURCES "clEnqueueReadBuffer" "buffer_size=1024"))) ∧
      Error.description (Error.Status Status.CL_OUT_OF_RESOURCES "CL_OUT_OF_RESOURCES"
        "clEnqueueReadBuffer" "buffer_size=1024"
        (fmt_status_desc Status.CL_OUT_OF_RESOURCES "clEnqueueReadBuffer" "buffer_size=1024")) =
        "CL_OUT_OF_RESOURCES" ∧
      "CL_OUT_OF_RESOURCES" ≠
        fmt_status_desc Status.CL_OUT_OF_RESOURCES "clEnqueueReadBuffer" "buffer_size=1024" ∧
      ¬ strContains "CL_OUT_OF_RESOURCES"
        (SDK_DOCS_URL_PRE ++ "clEnqueueReadBuffer" ++ SDK_DOCS_URL_SUF) :=
  ⟨rfl, rfl, by decide, by decide⟩

/-- C1 amended: for every `Status` error produced by the translator, the
description accessor returns the `status_string` field (the symbolic status
name); the precomputed `desc` field — stored in the value but not returned
by `description` — contains the operation name, the symbolic status name,
the decimal numeric code, and the documentation URL formed as the fixed
prefix, then the operation name, then `.html#errors`. -/
theorem status_description_amended (T : Type) (default : T) (s : Status)
    (fn_name fn_info : String) (h : s ≠ Status.CL_SUCCESS) :
    Error.err_status T default (statusToI32 s) fn_name fn_info =
      some (Except.error (Error.Status s (statusDebug s) fn_name fn_info
        (fmt_status_desc s fn_name fn_info))) ∧
      Error.description (Error.Status s (statusDebug s) fn_name fn_info
        (fmt_status_desc s fn_name fn_info)) = statusDebug s ∧
      strContains (fmt_status_desc s fn_name fn_info) fn_name ∧
      strContains (fmt_status_desc s fn_name fn_info) (statusDebug s) ∧
      strContains (fmt_status_desc s fn_name fn_info) (toString (statusToI32 s)) ∧
      strContains (fmt_status_desc s fn_name fn_info)
        (SDK_DOCS_URL_PRE ++ fn_name ++ SDK_DOCS_URL_SUF) := by
  refine ⟨err_status_failure_eq T default s fn_name fn_info h, rfl, ?_, ?_, ?_, ?_⟩
  · unfold fmt_status_desc
    exact strContains_mid _ _ _
  · unfold fmt_status_desc
    exact strContains_cons_left _ _ _ (strContains_cons_left _ _ _
      (strContains_cons_left _ _ _ (strContains_mid _ _ _)))
  · unfold fmt_status_desc
    exact strContains_cons_left _ _ _ (strContains_cons_left _ _ _
      (strContains_cons_left _ _ _ (strContains_cons_left _ _ _
        (strContains_cons_left _ _ _ (strContains_mid _ _ _)))))
  · unfold fmt_status_desc
    exact strContains_cons_left _ _ _ (strContains_cons_left _ _ _
      (strContains_cons_left _ _ _ (strContains_cons_left _ _ _
        (strContains_cons_left _ _ _ (strContains_cons_left _ _ _
          (strContains_cons_left _ _ _ (strContains_mid _ _ _)))))))

/-- Witness for the amended C1 at the spec's worked example. -/
theorem status_description_amended_witness :
    Status.CL_OUT_OF_RESOURCES ≠ Status.CL_SUCCESS ∧
      (Error.err_status Unit () (statusToI32 Status.CL_OUT_OF_RESOURCES)
          "clEnqueueReadBuffer" "buffer_size=1024" =
        some (Except.error (Error.Status Status.CL_OUT_OF_RESOURCES
          (statusDebug Status.CL_OUT_OF_RESOURCES) "clEnqueueReadBuffer" "buffer_size=1024"
          (fmt_status_desc Status.CL_OUT_OF_RESOURCES "clEnqueueReadBuffer"
            "buffer_size=1024"))) ∧
        Error.description (Error.Status Status.CL_OUT_OF_RESOURCES
          (statusDebug Status.CL_OUT_OF_RESOURCES) "clEnqueueReadBuffer" "buffer_size=1024"
          (fmt_status_desc Status.CL_OUT_OF_RESOURCES "clEnqueueReadBuffer"
            "buffer_size=1024")) = statusDebug Status.CL_OUT_OF_RESOURCES ∧
        strContains (fmt_status_desc Status.CL_OUT_OF_RESOURCES "clEnqueueReadBuffer"
          "buffer_size=1024") "clEnqueueReadBuffer" ∧
        strContains (fmt_status_desc Status.CL_OUT_OF_RESOURCES "clEnqueueReadBuffer"
          "buffer_size=1024") (statusDebug Status.CL_OUT_OF_RESOURCES) ∧
        strContains (fmt_status_desc Status.CL_OUT_OF_RESOURCES "clEnqueueReadBuffer"
          "buffer_size=1024") (toString (statusToI32 Status.CL_OUT_OF_RESOURCES)) ∧
        strContains (fmt_status_desc Status.CL_OUT_OF_RESOURCES "clEnqueueReadBuffer"
          "buffer_size=1024") (SDK_DOCS_URL_PRE ++ "clEnqueueReadBuffer" ++ SDK_DOCS_URL_SUF)) :=
  ⟨by decide, status_description_amended Unit () Status.CL_OUT_OF_RESOURCES
    "clEnqueueReadBuffer" "buffer_size=1024" (by decide)⟩

end OclCore
